import Mathlib

/-!
Shallow embedding of the attendsys-web API route handlers.

The handlers live in an Express/Supabase application; here the database is a
pure in-memory store, supabase query-builder chains are translated into list
operations, and each handler becomes a pure function from the store (plus the
authenticated user and the request data) to a response and an updated store.
The ambient clock (`new Date()`) is passed in as the `today` / timestamp
arguments.
-/

namespace AttendSys

/-- Roles carried by profiles and authenticated users
(middleware/auth `AuthUser.role`). -/
inductive Role where
  | admin
  | manager
  | employee
deriving DecidableEq, Repr

/-- The authenticated caller attached to a request by the `authenticate`
middleware (`req.user`): id, email, role and an optional organization id. -/
structure AuthUser where
  id : String
  email : String
  role : Role
  organization_id : Option Nat
deriving DecidableEq, Repr

/-- A row of the `employees` table, with the columns the embedded handlers
read or write.  `mobile`, `department`, `role`, `avatar_url` and `user_id`
are nullable columns (the employee schema marks them optional);
`organization_id` is required. -/
structure Employee where
  id : Nat
  name : String
  email : String
  mobile : Option String
  department : Option String
  role : Option Role
  avatar_url : Option String
  organization_id : Nat
  user_id : Option String
deriving DecidableEq, Repr

/-- A row of the `attendance_records` table.  Dates and timestamps are the
ISO strings the handlers store (`date` is `YYYY-MM-DD`, `check_in` /
`check_out` are ISO datetime strings); only equality on them matters to the
embedded logic. -/
structure AttendanceRecord where
  id : Nat
  employee_id : Nat
  date : String
  check_in : Option String
  check_out : Option String
  is_absent : Bool
  is_synced : Bool
deriving DecidableEq, Repr

/-- The slice of the database the attendance and employee handlers touch. -/
structure Store where
  employees : List Employee
  attendance_records : List AttendanceRecord
deriving DecidableEq, Repr

/-- Model of a supabase `.select(...).eq(...).single()` call: it yields a row
exactly when the filter matches one row, and a null `data` otherwise (zero or
several matches make `.single()` report an error, which the handlers ignore,
leaving `data` null). -/
def singleRow {α : Type} (p : α → Bool) (l : List α) : Option α :=
  match l.filter p with
  | [x] => some x
  | _ => none

/-- All attendance records for the daily key (employee_id, date). -/
def recordsFor (db : Store) (employee_id : Nat) (date : String) :
    List AttendanceRecord :=
  db.attendance_records.filter fun r =>
    r.employee_id == employee_id && r.date == date

/-- The existence lookup shared by the checkin / checkout / absent handlers:
`.eq('employee_id', eid).eq('date', d).single()`. -/
def findDayRecord (db : Store) (employee_id : Nat) (date : String) :
    Option AttendanceRecord :=
  singleRow (fun r => r.employee_id == employee_id && r.date == date)
    db.attendance_records

/-- A fresh id for an inserted attendance record (the database assigns serial
ids; the handlers never depend on their values). -/
def nextRecordId (db : Store) : Nat :=
  (db.attendance_records.map AttendanceRecord.id).foldr max 0 + 1

/-- A fresh id for an inserted employee row. -/
def nextEmployeeId (db : Store) : Nat :=
  (db.employees.map Employee.id).foldr max 0 + 1

/-- Outcome of an attendance mutation handler, tagged with the HTTP shape the
route returns: 201 with the created record, 200 with the updated record,
409 with a message and the pre-existing record, or 404 with a message. -/
inductive AttendanceResult where
  | created (record : AttendanceRecord)
  | ok (record : AttendanceRecord)
  | conflict (msg : String) (existing : AttendanceRecord)
  | notFound (msg : String)
deriving DecidableEq, Repr

/-- POST /api/attendance/checkin.  The handler runs after `authenticate`
(which supplies `user`), but reads only the request body's `employee_id` and
optional `check_in` (already defaulted to now by the caller of this model):
it never consults `user`.  If a record for (employee_id, today) exists it
answers 409 with that record; otherwise it inserts a record with
`check_in` set and `check_out` not set.  The insert does not mention
`is_absent`; the column's default is modelled from the spec: a record
produced by check-in has `is_absent = false`. -/
def checkin (db : Store) (user : AuthUser) (employee_id : Nat)
    (check_in today : String) : AttendanceResult × Store :=
  match findDayRecord db employee_id today with
  | some existing => (.conflict "Already checked in today" existing, db)
  | none =>
      let newRecord : AttendanceRecord :=
        { id := nextRecordId db
          employee_id := employee_id
          date := today
          check_in := some check_in
          check_out := none
          is_absent := false
          is_synced := true }
      (.created newRecord,
       { db with attendance_records := db.attendance_records ++ [newRecord] })

/-- POST /api/attendance/checkout.  Again only the body's `employee_id` and
the (defaulted) `check_out` timestamp are read, never `user`.  No record for
(employee_id, today) answers 404; a record whose `check_out` is already set
answers 409 with that record; otherwise the handler updates the row with the
matching id, setting `check_out`. -/
def checkout (db : Store) (user : AuthUser) (employee_id : Nat)
    (check_out today : String) : AttendanceResult × Store :=
  match findDayRecord db employee_id today with
  | none => (.notFound "No check-in found for today. Please check in first.", db)
  | some existing =>
      if existing.check_out.isSome then
        (.conflict "Already checked out today" existing, db)
      else
        (.ok { existing with check_out := some check_out },
         { db with attendance_records := db.attendance_records.map fun r =>
            if r.id == existing.id then { r with check_out := some check_out }
            else r })

/-- POST /api/attendance/absent (roles admin, manager).  If a record for
(employee_id, date) exists it answers 409 with that record; otherwise it
inserts a record with `is_absent = true` and neither `check_in` nor
`check_out` set. -/
def markAbsent (db : Store) (user : AuthUser) (employee_id : Nat)
    (date : String) : AttendanceResult × Store :=
  match findDayRecord db employee_id date with
  | some existing =>
      (.conflict "Attendance record already exists for today" existing, db)
  | none =>
      let newRecord : AttendanceRecord :=
        { id := nextRecordId db
          employee_id := employee_id
          date := date
          check_in := none
          check_out := none
          is_absent := true
          is_synced := true }
      (.created newRecord,
       { db with attendance_records := db.attendance_records ++ [newRecord] })

/-- JavaScript `Math.round` on the exact rational value of its argument:
`Math.round(x)` returns the floor of `x + 0.5` (nearest integer, with ties
rounded towards positive infinity). -/
def jsMathRound (x : ℚ) : ℤ :=
  ⌊x + 1 / 2⌋

/-- The percentage computation of the summary handler:
`totalEmployees > 0 ? Math.round((totalPresent / totalEmployees) * 100) : 0`. -/
def summaryPercentage (totalEmployees totalPresent : Nat) : ℤ :=
  if totalEmployees > 0 then
    jsMathRound ((totalPresent : ℚ) / (totalEmployees : ℚ) * 100)
  else 0

/-- The JSON body returned by GET /api/attendance/summary. -/
structure Summary where
  date : String
  total_employees : Nat
  present : Nat
  absent : ℤ
  attendance_percentage : ℤ
deriving DecidableEq, Repr

/-- The employees visible to the summary handler: scoped to the caller's
organization when the caller is a manager with an organization id, all
employees otherwise (`if (req.user?.role === 'manager' && req.user.organization_id)`;
organization ids are positive serials, so the truthiness test is modelled as
presence of the optional id). -/
def summaryScope (db : Store) (user : AuthUser) : List Employee :=
  match user.role, user.organization_id with
  | .manager, some orgId => db.employees.filter fun e => e.organization_id == orgId
  | _, _ => db.employees

/-- GET /api/attendance/summary (roles admin, manager).  Counts the scoped
employees, then counts the attendance records dated `today` whose
`employee_id` is among the scoped employees — with no condition on
`is_absent` — as `presentToday`; `absent` is the difference and the
percentage comes from `summaryPercentage`. -/
def summaryHandler (db : Store) (user : AuthUser) (today : String) : Summary :=
  let employees := summaryScope db user
  let totalEmployees := employees.length
  let presentToday := db.attendance_records.filter fun r =>
    r.date == today && (employees.map Employee.id).contains r.employee_id
  let totalPresent := presentToday.length
  { date := today
    total_employees := totalEmployees
    present := totalPresent
    absent := (totalEmployees : ℤ) - (totalPresent : ℤ)
    attendance_percentage := summaryPercentage totalEmployees totalPresent }

/-- One element of the present / absent lists of GET /api/attendance/daily:
the employee's data together with their record for the day, or null. -/
structure RosterEntry where
  id : Nat
  name : String
  department : Option String
  record : Option AttendanceRecord
deriving DecidableEq, Repr

/-- The JSON body returned by GET /api/attendance/daily. -/
structure Roster where
  present : List RosterEntry
  absent : List RosterEntry
deriving DecidableEq, Repr

/-- The organization filter of the daily handler:
`req.query.organization_id || (req.user?.role === 'manager' ? req.user.organization_id : null)` —
an organization id supplied in the query takes precedence; only when the
query carries none does a manager caller fall back to their own
organization. -/
def dailyOrgId (user : AuthUser) (queryOrgId : Option Nat) : Option Nat :=
  match queryOrgId with
  | some o => some o
  | none => if user.role == .manager then user.organization_id else none

/-- GET /api/attendance/daily (roles admin, manager).  Fetches the employees
(filtered by `dailyOrgId` when that is set), answers empty lists when there
are none, fetches the day's records for those employees, and files each
employee under `present` when they have a record that is not marked absent,
under `absent` otherwise.  The handler finally sorts `present` in place by
check-in time descending; the sort permutes the list without changing its
members and is not modelled (the claims about this route concern
membership). -/
def dailyHandler (db : Store) (user : AuthUser) (queryOrgId : Option Nat)
    (today : String) : Roster :=
  let employees : List Employee :=
    match dailyOrgId user queryOrgId with
    | some orgId => db.employees.filter fun e => e.organization_id == orgId
    | none => db.employees
  if employees.isEmpty then { present := [], absent := [] }
  else
    let records := db.attendance_records.filter fun r =>
      r.date == today && (employees.map Employee.id).contains r.employee_id
    let entries := employees.map fun e =>
      ({ id := e.id
         name := e.name
         department := e.department
         record := records.find? fun r => r.employee_id == e.id } : RosterEntry)
    { present := entries.filter fun en =>
        match en.record with
        | some r => !r.is_absent
        | none => false
      absent := entries.filter fun en =>
        match en.record with
        | some r => r.is_absent
        | none => true }

/-- GET /api/employees (roles admin, manager; both versions of the route file
carry the same scoping code).  A manager with an organization id sees only
their own organization's rows; everyone else sees all rows.  The handler also
orders by `created_at` descending; ordering does not change membership and is
not modelled. -/
def listEmployees (db : Store) (user : AuthUser) : List Employee :=
  match user.role, user.organization_id with
  | .manager, some orgId => db.employees.filter fun e => e.organization_id == orgId
  | _, _ => db.employees

/-- A row of the `profiles` table, with the columns the login handler
selects (`id, role, organization_id, name, mobile`) plus the `email` it
filters on. -/
structure Profile where
  id : String
  email : String
  role : Role
  organization_id : Option Nat
  name : String
  mobile : Option String
deriving DecidableEq, Repr

/-- The two tables the login handler consults. -/
structure AuthDb where
  profiles : List Profile
  employees : List Employee
deriving Repr

/-- JavaScript truthiness of a nullable string column: null and the empty
string are falsy. -/
def truthyStr : Option String → Bool
  | none => false
  | some s => !s.isEmpty

/-- The `userRecord` the login handler assembles before deciding how to
authenticate: a user id, the role and organization (both possibly null when
resolved from an employee row), and the display name and mobile number. -/
structure UserRecord where
  id : String
  role : Option Role
  organization_id : Option Nat
  name : String
  mobile : Option String
deriving DecidableEq, Repr

/-- The `userRecord` resolution of POST /api/auth/login.  A profile matching
the email is used directly, except that a profile with a falsy mobile or a
null organization id has those fields backfilled from the employee row with
the same email (each field only when the employee supplies a truthy value
and the profile lacks one).  With no profile, an employee row with the email
and a truthy `user_id` stands in, its `user_id` becoming the record's id.
Organization ids are positive database serials, so their JavaScript
truthiness is modelled as presence of the optional value. -/
def resolveUserRecord (adb : AuthDb) (email : String) : Option UserRecord :=
  match singleRow (fun p => p.email == email) adb.profiles with
  | some p =>
      let base : UserRecord :=
        { id := p.id, role := some p.role, organization_id := p.organization_id
          name := p.name, mobile := p.mobile }
      if !truthyStr base.mobile || base.organization_id.isNone then
        match singleRow (fun e => e.email == email) adb.employees with
        | some emp =>
            let withMobile : UserRecord :=
              if truthyStr emp.mobile && !truthyStr base.mobile then
                { base with mobile := emp.mobile }
              else base
            some (if base.organization_id.isNone then
                    { withMobile with organization_id := some emp.organization_id }
                  else withMobile)
        | none => some base
      else some base
  | none =>
      match singleRow (fun e => e.email == email) adb.employees with
      | some emp =>
          match emp.user_id with
          | some uid =>
              if uid.isEmpty then none
              else some { id := uid, role := emp.role
                          organization_id := some emp.organization_id
                          name := emp.name, mobile := emp.mobile }
          | none => none
      | none => none

/-- The `loginType` field of the login request body (defaulting to
`employee` in the request schema). -/
inductive LoginType where
  | admin
  | employee
deriving DecidableEq, Repr

/-- The payload of the self-signed JWT issued on the custom (non-admin)
login path: `{ sub, email, role, organization_id }` (the 7-day expiry is
token metadata and not modelled). -/
structure JwtPayload where
  sub : String
  email : String
  role : Option Role
  organization_id : Option Nat
deriving DecidableEq, Repr

/-- The access token a successful login returns: either a session token from
the identity provider (admin path) or a self-signed JWT with an explicit
payload. -/
inductive IssuedToken where
  | provider (token : String)
  | selfSigned (payload : JwtPayload)
deriving DecidableEq, Repr

/-- The `user` object of a successful login response. -/
structure LoginUser where
  id : String
  email : String
  name : String
  role : Option Role
  organization_id : Option Nat
deriving DecidableEq, Repr

/-- A successful login response body. -/
structure LoginResponse where
  token : IssuedToken
  user : LoginUser
deriving DecidableEq, Repr

/-- The failure responses of the login handler (401 except for the
403 `wrongTab` cases). -/
inductive LoginError where
  | userNotFound
  | wrongTab (msg : String)
  | invalidAdminCredentials
  | mobileNotSet
  | invalidPassword
deriving DecidableEq, Repr

/-- POST /api/auth/login.  `adminSignIn` stands for the identity provider's
`signInWithPassword` (an external collaborator), returning a session token
and user id on success.  After resolving the `userRecord`, the handler
rejects a `loginType` that does not match whether the account's role is
admin; admins are authenticated by the provider; everyone else by the custom
rule: with a falsy mobile the login fails, otherwise the password must equal
the mobile number or the mobile number followed by `ADi`, and a self-signed
JWT is issued. -/
def login (adminSignIn : String → String → Option (String × String))
    (adb : AuthDb) (email password : String) (loginType : LoginType) :
    Except LoginError LoginResponse :=
  match resolveUserRecord adb email with
  | none => .error .userNotFound
  | some userRecord =>
      let isActuallyAdmin := userRecord.role == some Role.admin
      if loginType == LoginType.admin && !isActuallyAdmin then
        .error (.wrongTab "This account does not have Admin privileges.")
      else if loginType == LoginType.employee && isActuallyAdmin then
        .error (.wrongTab "Admin accounts must use the Admin login tab.")
      else if isActuallyAdmin then
        match adminSignIn email password with
        | none => .error .invalidAdminCredentials
        | some (token, userId) =>
            .ok { token := .provider token
                  user := { id := userId, email := email
                            name := userRecord.name, role := userRecord.role
                            organization_id := userRecord.organization_id } }
      else
        let expectedPassword : Option String :=
          if truthyStr userRecord.mobile then userRecord.mobile.map (· ++ "ADi")
          else none
        let fallbackPassword : Option String :=
          if truthyStr userRecord.mobile then userRecord.mobile else none
        if expectedPassword.isNone && fallbackPassword.isNone then
          .error .mobileNotSet
        else if some password != expectedPassword
            && some password != fallbackPassword then
          .error .invalidPassword
        else
          .ok { token := .selfSigned
                  { sub := userRecord.id, email := email
                    role := userRecord.role
                    organization_id := userRecord.organization_id }
                user := { id := userRecord.id, email := email
                          name := userRecord.name, role := userRecord.role
                          organization_id := userRecord.organization_id } }

/-- The parsed body of POST /api/employees (second route version): the zod
employee schema with required name, email and organization_id. -/
structure NewEmployeeInput where
  name : String
  email : String
  mobile : Option String
  department : Option String
  role : Option Role
  avatar_url : Option String
  organization_id : Nat
  user_id : Option String
deriving DecidableEq, Repr

/-- The arguments the employee-creation handler passes to the identity
provider's `createUser` (user metadata flattened into the structure;
`email_confirm: true` is configuration and not modelled). -/
structure CreateUserArgs where
  email : String
  password : String
  name : String
  role : Role
  organization_id : Nat
deriving DecidableEq, Repr

/-- The exact `createUser` arguments built by POST /api/employees: the new
employee's email, the constant password, and metadata with the input's name,
its role defaulted to employee, and its organization id. -/
def authCreateArgs (input : NewEmployeeInput) : CreateUserArgs :=
  { email := input.email
    password := "Attendance123!"
    name := input.name
    role := input.role.getD Role.employee
    organization_id := input.organization_id }

/-- The failure responses of the employee-creation handler that the embedded
logic can produce (403 for a manager targeting a foreign organization, 400
when the identity provider refuses the user). -/
inductive CreateEmployeeError where
  | forbiddenOrg
  | authUserFailed (msg : String)
deriving DecidableEq, Repr

/-- POST /api/employees (roles admin, manager; second route version, the one
with identity auto-creation).  `createUser` stands for the identity
provider's admin user creation (an external collaborator), returning the
new identity's id or an error message.  A manager may only target their own
organization.  The handler first creates the identity with `authCreateArgs`;
if that fails it answers 400 and inserts nothing; otherwise it inserts the
employee row with `user_id` set to the created identity's id.  The optional
multipart avatar upload happens before this logic and aborts the request on
failure; the no-file path is modelled. -/
def createEmployee (createUser : CreateUserArgs → Except String String)
    (user : AuthUser) (db : Store) (input : NewEmployeeInput) :
    Except CreateEmployeeError Employee × Store :=
  if user.role == Role.manager
      && some input.organization_id != user.organization_id then
    (.error .forbiddenOrg, db)
  else
    match createUser (authCreateArgs input) with
    | .error msg => (.error (.authUserFailed msg), db)
    | .ok authUserId =>
        let newEmployee : Employee :=
          { id := nextEmployeeId db
            name := input.name
            email := input.email
            mobile := input.mobile
            department := input.department
            role := input.role
            avatar_url := input.avatar_url
            organization_id := input.organization_id
            user_id := some authUserId }
        (.ok newEmployee,
         { db with employees := db.employees ++ [newEmployee] })

/-! ### Concrete fixtures used by counterexamples and witnesses -/

/-- An employee of organization 1 with a linked identity. -/
def empOne : Employee :=
  { id := 1, name := "Asha", email := "asha@example.com", mobile := none
    department := none, role := none, avatar_url := none
    organization_id := 1, user_id := some "u-1" }

/-- A second employee of organization 1, distinct from `empOne`. -/
def empTwo : Employee :=
  { id := 2, name := "Ben", email := "ben@example.com", mobile := none
    department := none, role := none, avatar_url := none
    organization_id := 1, user_id := some "u-2" }

/-- An employee of organization 2. -/
def empOrg2 : Employee :=
  { id := 5, name := "Caro", email := "caro@example.com", mobile := none
    department := none, role := none, avatar_url := none
    organization_id := 2, user_id := none }

/-- An attendance record marking `empOne` explicitly absent on 2024-01-10. -/
def absentRecord : AttendanceRecord :=
  { id := 1, employee_id := 1, date := "2024-01-10", check_in := none
    check_out := none, is_absent := true, is_synced := true }

/-- A store whose single employee has only an explicit-absence record for
2024-01-10. -/
def dbAbsent : Store :=
  { employees := [empOne], attendance_records := [absentRecord] }

/-- A store with two employees and no attendance records. -/
def dbTwoEmployees : Store :=
  { employees := [empOne, empTwo], attendance_records := [] }

/-- A store whose single employee belongs to organization 2. -/
def dbOrg2 : Store :=
  { employees := [empOrg2], attendance_records := [] }

/-- An admin caller. -/
def adminUser : AuthUser :=
  { id := "admin-1", email := "admin@example.com", role := .admin
    organization_id := none }

/-- An employee-role caller whose identity links to `empOne`. -/
def employeeUser : AuthUser :=
  { id := "u-1", email := "asha@example.com", role := .employee
    organization_id := some 1 }

/-- A manager of organization 1. -/
def managerOrg1 : AuthUser :=
  { id := "mgr-1", email := "mgr@example.com", role := .manager
    organization_id := some 1 }

/-- A non-admin profile with a stored mobile number. -/
def profileWithMobile : Profile :=
  { id := "u-9", email := "emp@example.com", role := .employee
    organization_id := some 1, name := "Devi", mobile := some "9876543210" }

/-- An auth database containing only `profileWithMobile`. -/
def adbMobile : AuthDb :=
  { profiles := [profileWithMobile], employees := [] }

/-! ### Helper lemmas about the daily-record lookup -/

/-- `singleRow` returns the one matching row when the filter keeps at most
one element and the element is among the kept ones. -/
lemma singleRow_eq_some {α : Type} (p : α → Bool) (l : List α) (r : α)
    (hlen : (l.filter p).length ≤ 1) (hmem : r ∈ l.filter p) :
    singleRow p l = some r := by
  unfold singleRow
  rcases hlist : l.filter p with _ | ⟨x, _ | ⟨y, t⟩⟩
  · rw [hlist] at hmem; simp at hmem
  · rw [hlist] at hmem
    simp at hmem
    simp [hmem]
  · rw [hlist] at hlen; simp at hlen

/-- `singleRow` returns null when nothing matches the filter. -/
lemma singleRow_eq_none {α : Type} (p : α → Bool) (l : List α)
    (hnone : ∀ a ∈ l, ¬p a) : singleRow p l = none := by
  unfold singleRow
  rw [List.filter_eq_nil_iff.2 hnone]

/-- Under the at-most-one-record-per-day invariant, a stored record for the
key is what the handlers' `.single()` lookup returns. -/
lemma findDayRecord_eq_some_of_mem (db : Store) (eid : Nat) (d : String)
    (r : AttendanceRecord) (hwf : (recordsFor db eid d).length ≤ 1)
    (hr : r ∈ db.attendance_records) (heid : r.employee_id = eid)
    (hd : r.date = d) : findDayRecord db eid d = some r := by
  have hmem : r ∈ recordsFor db eid d := by
    unfold recordsFor
    refine List.mem_filter.2 ⟨hr, ?_⟩
    simp [heid, hd]
  exact singleRow_eq_some _ _ r hwf hmem

/-- With no stored record for the key, the lookup comes back null. -/
lemma findDayRecord_eq_none (db : Store) (eid : Nat) (d : String)
    (hnone : ∀ r ∈ db.attendance_records, ¬(r.employee_id = eid ∧ r.date = d)) :
    findDayRecord db eid d = none := by
  refine singleRow_eq_none _ _ fun r hr => ?_
  have := hnone r hr
  simp only [Bool.and_eq_true, beq_iff_eq]
  tauto

/-- **C4.**  checkIn for (employee_id, today) succeeds only when no
attendance record exists for that key, creating a record with check_in set,
check_out null and is_absent false (the column default, per the data model);
if a record already exists for the key — of any kind — checkIn answers
Conflict carrying that pre-existing record and leaves the store unchanged.
The invariant hypothesis is the (employee_id, date) uniqueness the backing
store enforces. -/
theorem checkin_conflict_iff_record_exists (db : Store) (u : AuthUser)
    (eid : Nat) (ts d : String) (hwf : (recordsFor db eid d).length ≤ 1) :
    (∀ r, r ∈ db.attendance_records → r.employee_id = eid → r.date = d →
      checkin db u eid ts d = (.conflict "Already checked in today" r, db)) ∧
    ((∀ r ∈ db.attendance_records, ¬(r.employee_id = eid ∧ r.date = d)) →
      ∃ newRecord,
        checkin db u eid ts d =
          (.created newRecord,
           { db with attendance_records := db.attendance_records ++ [newRecord] }) ∧
        newRecord.employee_id = eid ∧ newRecord.date = d ∧
        newRecord.check_in = some ts ∧ newRecord.check_out = none ∧
        newRecord.is_absent = false) := by
  constructor
  · intro r hr heid hd
    have hfind := findDayRecord_eq_some_of_mem db eid d r hwf hr heid hd
    unfold checkin
    rw [hfind]
  · intro hnone
    have hfind := findDayRecord_eq_none db eid d hnone
    refine ⟨{ id := nextRecordId db, employee_id := eid, date := d
              check_in := some ts, check_out := none, is_absent := false
              is_synced := true }, ?_, rfl, rfl, rfl, rfl, rfl⟩
    unfold checkin
    rw [hfind]

/-- Witness for C4: in the store holding an explicit-absence record for
employee 1 on 2024-01-10, a check-in attempt for that key answers Conflict
with that very record and an unchanged store. -/
theorem checkin_conflict_iff_record_exists_witness :
    checkin dbAbsent adminUser 1 "2024-01-10T09:00:00Z" "2024-01-10"
      = (.conflict "Already checked in today" absentRecord, dbAbsent) :=
  (checkin_conflict_iff_record_exists dbAbsent adminUser 1
      "2024-01-10T09:00:00Z" "2024-01-10" (by decide)).1
    absentRecord (by decide) rfl rfl

/-- **C7.**  markAbsent for (employee_id, date) succeeds only when no
attendance record exists for that key, creating a record with is_absent true
and check_in null; if any record exists for the key it answers Conflict
carrying the pre-existing record, leaving the store unchanged. -/
theorem mark_absent_conflict_iff_record_exists (db : Store) (u : AuthUser)
    (eid : Nat) (d : String) (hwf : (recordsFor db eid d).length ≤ 1) :
    (∀ r, r ∈ db.attendance_records → r.employee_id = eid → r.date = d →
      markAbsent db u eid d =
        (.conflict "Attendance record already exists for today" r, db)) ∧
    ((∀ r ∈ db.attendance_records, ¬(r.employee_id = eid ∧ r.date = d)) →
      ∃ newRecord,
        markAbsent db u eid d =
          (.created newRecord,
           { db with attendance_records := db.attendance_records ++ [newRecord] }) ∧
        newRecord.employee_id = eid ∧ newRecord.date = d ∧
        newRecord.is_absent = true ∧ newRecord.check_in = none ∧
        newRecord.check_out = none) := by
  constructor
  · intro r hr heid hd
    have hfind := findDayRecord_eq_some_of_mem db eid d r hwf hr heid hd
    unfold markAbsent
    rw [hfind]
  · intro hnone
    have hfind := findDayRecord_eq_none db eid d hnone
    refine ⟨{ id := nextRecordId db, employee_id := eid, date := d
              check_in := none, check_out := none, is_absent := true
              is_synced := true }, ?_, rfl, rfl, rfl, rfl, rfl⟩
    unfold markAbsent
    rw [hfind]

/-- Witness for C7: marking employee 1 absent for 2024-01-10 when an absence
record already exists answers Conflict with that record and an unchanged
store. -/
theorem mark_absent_conflict_iff_record_exists_witness :
    markAbsent dbAbsent adminUser 1 "2024-01-10"
      = (.conflict "Attendance record already exists for today" absentRecord,
         dbAbsent) :=
  (mark_absent_conflict_iff_record_exists dbAbsent adminUser 1 "2024-01-10"
      (by decide)).1 absentRecord (by decide) rfl rfl

/-- **C1.**  The claim says the daily summary counts an employee present
exactly when a record with is_absent = false exists; the summary handler
instead counts every attendance record for the date, including explicit
absences.  Evaluated at the failing input: the store's only employee has
only an explicit-absence record (is_absent = true) for 2024-01-10, yet the
summary reports present = 1 and absent = 0, where the claim requires
present = 0 and absent = 1. -/
theorem summary_counts_marked_absent_as_present :
    absentRecord.is_absent = true ∧
    dbAbsent.attendance_records = [absentRecord] ∧
    (summaryHandler dbAbsent adminUser "2024-01-10").total_employees = 1 ∧
    (summaryHandler dbAbsent adminUser "2024-01-10").present = 1 ∧
    (summaryHandler dbAbsent adminUser "2024-01-10").absent = 0 := by
  refine ⟨rfl, rfl, rfl, by decide, by decide⟩

/-- **C3.**  The claim says checkOut never succeeds from the MarkedAbsent
state; the checkout handler only tests that a record exists and that its
check_out is unset, so from an explicit-absence record (check_in null,
is_absent true) it succeeds, answering 200 and writing check_out onto the
absence record — the failing input evaluated here. -/
theorem checkout_succeeds_from_marked_absent :
    absentRecord.is_absent = true ∧
    absentRecord.check_in = none ∧
    dbAbsent.attendance_records = [absentRecord] ∧
    (checkout dbAbsent adminUser 1 "2024-01-10T17:00:00Z" "2024-01-10").1
      = .ok { absentRecord with check_out := some "2024-01-10T17:00:00Z" } ∧
    (checkout dbAbsent adminUser 1 "2024-01-10T17:00:00Z" "2024-01-10").2
      = { dbAbsent with attendance_records :=
            [{ absentRecord with check_out := some "2024-01-10T17:00:00Z" }] } := by
  refine ⟨rfl, rfl, rfl, by decide, by decide⟩

/-- Counterexample to **C2**: an employee-role caller whose identity links
to employee 1 issues a check-in naming employee 2, and the handler accepts
it, creating a record for employee 2 — the request is neither rejected nor
redirected to the caller's own employee record. -/
theorem checkin_ignores_caller_counterexample :
    employeeUser.role = Role.employee ∧
    empOne.user_id = some employeeUser.id ∧
    empOne.id = 1 ∧ empTwo.id = 2 ∧
    (checkin dbTwoEmployees employeeUser 2 "2024-01-10T09:00:00Z"
        "2024-01-10").1
      = .created { id := 1, employee_id := 2, date := "2024-01-10"
                   check_in := some "2024-01-10T09:00:00Z", check_out := none
                   is_absent := false, is_synced := true } := by
  refine ⟨rfl, rfl, rfl, rfl, by decide⟩

/-- **C2 (amended).**  The check-in and check-out handlers take their target
from the request body's employee_id for every caller: their outcome never
depends on the caller's identity or role, and a successful check-in creates
a record for exactly the employee named in the body. -/
theorem checkin_checkout_target_body_employee (db : Store) (u v : AuthUser)
    (eid : Nat) (ts today : String) :
    checkin db u eid ts today = checkin db v eid ts today ∧
    checkout db u eid ts today = checkout db v eid ts today ∧
    (∀ r s, checkin db u eid ts today = (.created r, s) →
      r.employee_id = eid) := by
  refine ⟨rfl, rfl, ?_⟩
  intro r s h
  unfold checkin at h
  cases hfind : findDayRecord db eid today with
  | some existing => rw [hfind] at h; simp at h
  | none =>
      rw [hfind] at h
      simp only [Prod.mk.injEq, AttendanceResult.created.injEq] at h
      rw [← h.1]

/-- Witness for the amended C2: a concrete successful check-in naming
employee 2 creates a record whose employee_id is 2. -/
theorem checkin_checkout_target_body_employee_witness :
    ({ id := 1, employee_id := 2, date := "2024-01-10"
       check_in := some "2024-01-10T09:00:00Z", check_out := none
       is_absent := false, is_synced := true } : AttendanceRecord).employee_id
      = 2 :=
  (checkin_checkout_target_body_employee dbTwoEmployees employeeUser adminUser
      2 "2024-01-10T09:00:00Z" "2024-01-10").2.2 _
    { dbTwoEmployees with attendance_records :=
        [{ id := 1, employee_id := 2, date := "2024-01-10"
           check_in := some "2024-01-10T09:00:00Z", check_out := none
           is_absent := false, is_synced := true }] }
    (by decide)

/-- Counterexample to **C5**: a manager of organization 1 requests the daily
roster naming organization 2 in the query, and the returned absent list
contains the organization-2 employee — the query parameter overrides the
manager's own organization. -/
theorem daily_roster_query_overrides_manager_counterexample :
    managerOrg1.role = Role.manager ∧
    managerOrg1.organization_id = some 1 ∧
    dbOrg2.employees = [empOrg2] ∧
    empOrg2.organization_id = 2 ∧
    (dailyHandler dbOrg2 managerOrg1 (some 2) "2024-01-10").absent.map
        RosterEntry.id = [5] ∧
    empOrg2.id = 5 := by
  refine ⟨rfl, rfl, rfl, rfl, by decide, rfl⟩

/-- **C5 (amended).**  For a daily-roster request by a manager that supplies
no organization_id in the query, every employee in the returned present and
absent lists belongs to the manager's own organization; a supplied
organization_id instead takes precedence over the manager's scope. -/
theorem daily_roster_manager_scoped_without_query (db : Store) (u : AuthUser)
    (o : Nat) (today : String) (hrole : u.role = Role.manager)
    (horg : u.organization_id = some o) :
    ∀ en, (en ∈ (dailyHandler db u none today).present ∨
           en ∈ (dailyHandler db u none today).absent) →
      ∃ e, e ∈ db.employees ∧ e.id = en.id ∧ e.organization_id = o := by
  intro en hen
  have horgid : dailyOrgId u none = some o := by
    simp [dailyOrgId, hrole, horg]
  unfold dailyHandler at hen
  rw [horgid] at hen
  by_cases hemp : (db.employees.filter fun e => e.organization_id == o).isEmpty
  · simp only [hemp, if_true] at hen
    rcases hen with h | h <;> simp at h
  · simp only [hemp, if_false] at hen
    have hentry :
        en ∈ (db.employees.filter fun e => e.organization_id == o).map
          (fun e => ({ id := e.id, name := e.name, department := e.department
                       record := (db.attendance_records.filter fun r =>
                          r.date == today &&
                          (((db.employees.filter fun e =>
                              e.organization_id == o).map
                            Employee.id).contains r.employee_id)).find?
                         fun r => r.employee_id == e.id } : RosterEntry)) := by
      rcases hen with h | h
      · exact (List.mem_filter.1 h).1
      · exact (List.mem_filter.1 h).1
    rcases List.mem_map.1 hentry with ⟨e, hmem, hEq⟩
    rcases List.mem_filter.1 hmem with ⟨hdb, hor⟩
    refine ⟨e, hdb, ?_, by simpa using hor⟩
    rw [← hEq]

/-- Witness for the amended C5: a manager of organization 2 with no query
parameter sees the organization-2 employee in the roster, and that employee
is indeed an organization-2 row of the store. -/
theorem daily_roster_manager_scoped_without_query_witness :
    ∃ e, e ∈ dbOrg2.employees ∧
      e.id = ({ id := 5, name := "Caro", department := none, record := none } :
        RosterEntry).id ∧ e.organization_id = 2 :=
  daily_roster_manager_scoped_without_query dbOrg2
    { id := "mgr-2", email := "mgr2@example.com", role := .manager
      organization_id := some 2 } 2 "2024-01-10" rfl rfl
    { id := 5, name := "Caro", department := none, record := none }
    (Or.inr (by decide))

/-- **C6.**  For an employee-listing request by a manager with a non-null
organization id, every returned row's organization_id equals the manager's
own, whatever the store contains. -/
theorem list_employees_manager_scoped (db : Store) (u : AuthUser) (o : Nat)
    (hrole : u.role = Role.manager) (horg : u.organization_id = some o) :
    ∀ e ∈ listEmployees db u, e.organization_id = o := by
  intro e he
  unfold listEmployees at he
  rw [hrole, horg] at he
  have := List.mem_filter.1 he
  simpa using this.2

/-- Witness for C6: the organization-2 manager's listing over `dbOrg2`
contains `empOrg2`, whose organization_id is 2. -/
theorem list_employees_manager_scoped_witness : empOrg2.organization_id = 2 :=
  list_employees_manager_scoped dbOrg2
    { id := "mgr-2", email := "mgr2@example.com", role := .manager
      organization_id := some 2 } 2 rfl rfl empOrg2 (by decide)

/-- **C8.**  The summary percentage with zero employees in scope is 0 (the
handler's guard, so no division happens), and with a non-empty scope it is
present / total * 100 rounded to the nearest integer with ties rounding
half-up: it is the unique integer in the half-open interval
(q - 1/2, q + 1/2] around the exact ratio q = 100 * present / total. -/
theorem summary_percentage_rounds_half_up (t p : Nat) :
    summaryPercentage 0 p = 0 ∧
    (0 < t →
      100 * (p : ℚ) / (t : ℚ) - 1 / 2 < (summaryPercentage t p : ℚ) ∧
      (summaryPercentage t p : ℚ) ≤ 100 * (p : ℚ) / (t : ℚ) + 1 / 2) := by
  constructor
  · simp [summaryPercentage]
  · intro ht
    have hq : (p : ℚ) / (t : ℚ) * 100 = 100 * (p : ℚ) / (t : ℚ) := by ring
    have hdef : summaryPercentage t p
        = jsMathRound (100 * (p : ℚ) / (t : ℚ)) := by
      simp [summaryPercentage, ht, hq]
    rw [hdef]
    unfold jsMathRound
    constructor
    · have h1 := Int.sub_one_lt_floor (100 * (p : ℚ) / (t : ℚ) + 1 / 2)
      linarith
    · have h2 := Int.floor_le (100 * (p : ℚ) / (t : ℚ) + 1 / 2)
      linarith

/-- Witness for C8 at the spec's scenario numbers: 6 present out of 10. -/
theorem summary_percentage_rounds_half_up_witness :
    100 * ((6 : Nat) : ℚ) / ((10 : Nat) : ℚ) - 1 / 2
        < (summaryPercentage 10 6 : ℚ) ∧
      (summaryPercentage 10 6 : ℚ)
        ≤ 100 * ((6 : Nat) : ℚ) / ((10 : Nat) : ℚ) + 1 / 2 :=
  (summary_percentage_rounds_half_up 10 6).2 (by norm_num)

/-- The resolved user record of `profileWithMobile`. -/
def uRecMobile : UserRecord :=
  { id := "u-9", role := some .employee, organization_id := some 1
    name := "Devi", mobile := some "9876543210" }

/-- The response the custom (non-admin) login path returns on success: the
self-signed JWT payload and the user object, both built from the resolved
user record. -/
def selfSignedResponse (u : UserRecord) (email : String) : LoginResponse :=
  { token := .selfSigned { sub := u.id, email := email, role := u.role
                           organization_id := u.organization_id }
    user := { id := u.id, email := email, name := u.name, role := u.role
              organization_id := u.organization_id } }

/-- Counterexample to **C9**: the claim quantifies over every login request
whose resolved account is non-admin, but a request whose loginType is admin
is answered 403 before any password check.  Here the resolved account is a
non-admin with stored mobile "9876543210" and the supplied password equals
that mobile, yet the login fails. -/
theorem login_admin_tab_counterexample :
    resolveUserRecord adbMobile "emp@example.com" = some uRecMobile ∧
    uRecMobile.role ≠ some Role.admin ∧
    uRecMobile.mobile = some "9876543210" ∧
    login (fun _ _ => none) adbMobile "emp@example.com" "9876543210"
        LoginType.admin
      = .error (.wrongTab "This account does not have Admin privileges.") := by
  refine ⟨by decide, by decide, rfl, by rfl⟩

/-- **C9 (amended).**  For every login request with loginType employee (the
default) whose resolved account has a role other than admin: with a stored
non-empty mobile number m the login succeeds exactly when the supplied
password is m or m followed by "ADi", and any success is the self-signed
response carrying {sub = id, email, role, organization_id}; with no stored
mobile (or an empty one, which the handler treats as unset) the login never
succeeds. -/
theorem login_employee_mobile_rule
    (sgn : String → String → Option (String × String)) (adb : AuthDb)
    (email password : String) (u : UserRecord)
    (hres : resolveUserRecord adb email = some u)
    (hrole : u.role ≠ some Role.admin) :
    (∀ m, u.mobile = some m → m ≠ "" →
      ((∃ resp, login sgn adb email password .employee = .ok resp) ↔
        password = m ∨ password = m ++ "ADi") ∧
      (∀ resp, login sgn adb email password .employee = .ok resp →
        resp = selfSignedResponse u email)) ∧
    ((u.mobile = none ∨ u.mobile = some "") →
      ∀ resp, login sgn adb email password .employee ≠ .ok resp) := by
  have hadmin : (u.role == some Role.admin) = false := by
    simpa using hrole
  have hbase : login sgn adb email password .employee =
      (let expectedPassword : Option String :=
        if truthyStr u.mobile then u.mobile.map (· ++ "ADi") else none
       let fallbackPassword : Option String :=
        if truthyStr u.mobile then u.mobile else none
       if expectedPassword.isNone && fallbackPassword.isNone then
         .error .mobileNotSet
       else if some password != expectedPassword
           && some password != fallbackPassword then
         .error .invalidPassword
       else .ok (selfSignedResponse u email)) := by
    unfold login selfSignedResponse
    rw [hres]
    simp [hadmin]
  constructor
  · intro m hm hmne
    have hmfalse : m.isEmpty = false := by
      rw [Bool.eq_false_iff]
      intro hcontra
      exact hmne ((String.isEmpty_iff m).1 hcontra)
    by_cases h1 : password = m
    · have hlogin : login sgn adb email password .employee
          = .ok (selfSignedResponse u email) := by
        rw [hbase]
        simp [hm, truthyStr, hmfalse, h1]
      rw [hlogin]
      refine ⟨⟨fun _ => Or.inl h1, fun _ => ⟨_, rfl⟩⟩, ?_⟩
      intro resp h
      injection h with h
      exact h.symm
    · by_cases h2 : password = m ++ "ADi"
      · have hlogin : login sgn adb email password .employee
            = .ok (selfSignedResponse u email) := by
          rw [hbase]
          simp [hm, truthyStr, hmfalse, h2]
        rw [hlogin]
        refine ⟨⟨fun _ => Or.inr h2, fun _ => ⟨_, rfl⟩⟩, ?_⟩
        intro resp h
        injection h with h
        exact h.symm
      · have hlogin : login sgn adb email password .employee
            = .error .invalidPassword := by
          rw [hbase]
          simp [hm, truthyStr, hmfalse, h1, h2]
        rw [hlogin]
        constructor
        · constructor
          · rintro ⟨resp, hresp⟩
            simp at hresp
          · rintro (h | h)
            · exact absurd h h1
            · exact absurd h h2
        · intro resp h
          simp at h
  · intro hmob resp
    have hlogin : login sgn adb email password .employee
        = .error .mobileNotSet := by
      rw [hbase]
      have hempty : ("" : String).isEmpty = true := rfl
      rcases hmob with h | h <;> simp [h, truthyStr, hempty]
    rw [hlogin]
    simp

/-- Witness for the amended C9: the concrete non-admin account with mobile
"9876543210", password equal to the mobile. -/
theorem login_employee_mobile_rule_witness :
    ((∃ resp, login (fun _ _ => none) adbMobile "emp@example.com"
        "9876543210" .employee = .ok resp) ↔
      "9876543210" = "9876543210" ∨ "9876543210" = "9876543210" ++ "ADi") ∧
    (∀ resp, login (fun _ _ => none) adbMobile "emp@example.com" "9876543210"
        .employee = .ok resp →
      resp = selfSignedResponse uRecMobile "emp@example.com") :=
  (login_employee_mobile_rule (fun _ _ => none) adbMobile "emp@example.com"
      "9876543210" uRecMobile (by decide) (by decide)).1
    "9876543210" rfl (by decide)

/-- An identity-provider stub that accepts every user-creation request and
returns a fixed new identity id. -/
def alwaysCreateUser : CreateUserArgs → Except String String :=
  fun _ => .ok "auth-1"

/-- The parsed body of a concrete employee-creation request. -/
def newEmpInput : NewEmployeeInput :=
  { name := "Devi", email := "devi@example.com", mobile := some "9876543210"
    department := some "Sales", role := none, avatar_url := none
    organization_id := 1, user_id := none }

/-- The employee row the creation handler inserts for `newEmpInput` over
`dbTwoEmployees` when the identity provider returns id "auth-1". -/
def newEmpRow : Employee :=
  { id := 3, name := "Devi", email := "devi@example.com"
    mobile := some "9876543210", department := some "Sales", role := none
    avatar_url := none, organization_id := 1, user_id := some "auth-1" }

/-- **C10.**  The employee-creation handler always calls the identity
provider with the new employee's email and the constant password
"Attendance123!"; every successful creation inserts exactly one employee row
whose user_id is the created identity's id and whose email is the input's;
and when the identity creation fails the store is unchanged and no success
is possible. -/
theorem create_employee_creates_identity
    (cu : CreateUserArgs → Except String String) (u : AuthUser) (db : Store)
    (input : NewEmployeeInput) :
    (authCreateArgs input).password = "Attendance123!" ∧
    (authCreateArgs input).email = input.email ∧
    (∀ emp db2, createEmployee cu u db input = (.ok emp, db2) →
      ∃ uid, cu (authCreateArgs input) = .ok uid ∧ emp.user_id = some uid ∧
        emp.email = input.email ∧
        db2.employees = db.employees ++ [emp]) ∧
    (∀ msg, cu (authCreateArgs input) = .error msg →
      (createEmployee cu u db input).2 = db ∧
      ∀ emp db2, createEmployee cu u db input ≠ (.ok emp, db2)) := by
  refine ⟨rfl, rfl, ?_, ?_⟩
  · intro emp db2 h
    unfold createEmployee at h
    split at h
    · simp at h
    · cases hcu : cu (authCreateArgs input) with
      | error msg => rw [hcu] at h; simp at h
      | ok uid =>
          rw [hcu] at h
          simp only [Prod.mk.injEq, Except.ok.injEq] at h
          obtain ⟨hemp, hdb⟩ := h
          refine ⟨uid, rfl, ?_, ?_, ?_⟩
          · rw [← hemp]
          · rw [← hemp]
          · rw [← hdb, ← hemp]
  · intro msg hcu
    unfold createEmployee
    split
    · exact ⟨rfl, by simp⟩
    · rw [hcu]
      exact ⟨rfl, by simp⟩

/-- Witness for C10: the concrete request `newEmpInput` by an admin over
`dbTwoEmployees` with an accepting identity provider. -/
theorem create_employee_creates_identity_witness :
    ∃ uid, alwaysCreateUser (authCreateArgs newEmpInput) = .ok uid ∧
      newEmpRow.user_id = some uid ∧ newEmpRow.email = newEmpInput.email ∧
      ({ dbTwoEmployees with
          employees := dbTwoEmployees.employees ++ [newEmpRow] } : Store).employees
        = dbTwoEmployees.employees ++ [newEmpRow] :=
  (create_employee_creates_identity alwaysCreateUser adminUser dbTwoEmployees
      newEmpInput).2.2.1 newEmpRow
    { dbTwoEmployees with
      employees := dbTwoEmployees.employees ++ [newEmpRow] } (by rfl)

end AttendSys
